import Mathlib

/-!
Verification of the `appengine-value` library (package `value`): a three-tier
(process-local map / memcache / datastore) read-through store of string
values with a write-once admission protocol and an admin delete handler.

The repository contains several near-duplicate revisions of the same file;
all revisions present under `src/` are embedded here:
  * `Get`    — `Get` (src/value.go lines 43-79 and 157-193, src/secrets.go
               lines 34-71; the revisions' bodies are identical);
  * `SetV`   — `Set` (src/value.go lines 81-107): admin check, then
               local / memcache / datastore conflict checks, then a
               transactional put that stores `e{Value: key}`;
  * `setV2`  — `set` (src/value.go lines 269-291): local / memcache /
               datastore conflict checks, transactional put of
               `e{Value: val}`;
  * `setA`   — `set` (src/admin.go lines 118-137): memcache / datastore
               conflict checks only (no process-local check),
               transactional put of `e{Value: val}`;
  * `deleteValue` — the delete branch of `updateHandler`
               (src/admin.go lines 92-104);
  * `getMulti` — the batched read path; its implementation is not among
               the files under `src/` (only the README's usage example
               refers to `value.GetMulti`), so it is modelled from the
               specification.

Caches and the datastore are modelled as partial maps `String → Option
String`.  Backend faults (a memcache error other than `ErrCacheMiss`, a
datastore error other than `ErrNoSuchEntity`) are injected through explicit
boolean fault flags, mirroring exactly the error branches of the Go code.
-/

/-- A key/value tier (process-local map, memcache, or datastore) as a
partial map from keys to values. -/
def Tier : Type := String → Option String

/-- Pointwise insertion into a tier: Go `local[key] = v`, `memcache.Set`,
`datastore.Put`. -/
def mapUpd (m : Tier) (k v : String) : Tier :=
  fun x => if x = k then some v else m x

/-- Pointwise removal from a tier: Go `memcache.Delete`, `datastore.Delete`. -/
def mapDel (m : Tier) (k : String) : Tier :=
  fun x => if x = k then none else m x

/-- The three storage tiers of the package: the process-local `local` map,
memcache keyed by physical cache key, and the datastore entities of kind
`Values` keyed by string id. -/
structure St where
  loc : Tier
  memc : Tier
  ds : Tier

/-- The empty system state: all three tiers empty. -/
def st0 : St := ⟨fun _ => none, fun _ => none, fun _ => none⟩

/-- The memcache key under which `Get` backfills a resolved value:
`MemcacheKeyPrefix + key` (src/value.go line 71 / 186). -/
def memcacheStoreKey (pfx key : String) : String := pfx ++ key

/-- The memcache key used by the lookups `memcache.Get(c, key)` in `Get`
(src/value.go line 49 / 163) and in the conflict check of `Set`/`set`
(src/value.go lines 88 and 273, src/admin.go line 119): the bare key. -/
def memcacheLookupKey (key : String) : String := key

/-- Embeds `Get` (src/value.go lines 43-79, identically lines 157-193 and
src/secrets.go lines 34-71).  Consults the local map, then memcache under
the bare key, then the datastore; a datastore hit is written back into the
local map and into memcache under `MemcacheKeyPrefix + key`.  A memcache
hit returns the cached bytes without touching the local map.  `mcGetFault`
models a `memcache.Get` error other than `ErrCacheMiss` (logged, falls
through to the datastore), `dsFault` a `datastore.Get` error (logged,
returns `""`), `mcSetFault` a `memcache.Set` error during backfill (logged,
ignored).  Returns the resolved string and the post-state; the Go function
never returns an error to its caller. -/
def Get (pfx : String) (mcGetFault dsFault mcSetFault : Bool) (s : St)
    (key : String) : String × St :=
  match s.loc key with
  | some v => (v, s)
  | none =>
    match if mcGetFault then none else s.memc (memcacheLookupKey key) with
    | some v => (v, s)
    | none =>
      match if dsFault then none else s.ds key with
      | none => ("", s)
      | some v =>
        let loc' := mapUpd s.loc key v
        let memc' := if mcSetFault then s.memc
                     else mapUpd s.memc (memcacheStoreKey pfx key) v
        (v, { s with loc := loc', memc := memc' })

/-- Outcome of the write-once admission protocol, one constructor per
`return` in the Go `Set`/`set` functions. -/
inductive SetResult where
  | ok
  | adminOnly
  | foundLocal
  | foundMemcache
  | foundDatastore
  | backend
deriving DecidableEq

/-- Embeds `Set` (src/value.go lines 81-107).  Rejects non-admin callers,
then fails if the key is in the local map, if `memcache.Get` returns
anything other than `ErrCacheMiss` (a hit or a backend fault, `mcFault`),
or if the transactional `datastore.Get` finds the record (`dsFault` models
a datastore error other than `ErrNoSuchEntity`, surfaced as-is).
Otherwise commits — line 104 puts `e{Value: key}`, i.e. the KEY string is
stored as the entity's value. -/
def SetV (isAdmin mcFault dsFault : Bool) (s : St) (key val : String) :
    SetResult × St :=
  if !isAdmin then (.adminOnly, s)
  else match s.loc key with
  | some _ => (.foundLocal, s)
  | none =>
    if mcFault || (s.memc (memcacheLookupKey key)).isSome then
      (.foundMemcache, s)
    else if dsFault then (.backend, s)
    else match s.ds key with
    | some _ => (.foundDatastore, s)
    | none => (.ok, { s with ds := mapUpd s.ds key key })

/-- Embeds `set` (src/value.go lines 269-291): same conflict checks as
`SetV` (local map, memcache, datastore) but with no admin check of its own
(its caller `updateHandler` performs it), and line 288 puts
`&e{Value: val}` — the value is stored. -/
def setV2 (mcFault dsFault : Bool) (s : St) (key val : String) :
    SetResult × St :=
  match s.loc key with
  | some _ => (.foundLocal, s)
  | none =>
    if mcFault || (s.memc (memcacheLookupKey key)).isSome then
      (.foundMemcache, s)
    else if dsFault then (.backend, s)
    else match s.ds key with
    | some _ => (.foundDatastore, s)
    | none => (.ok, { s with ds := mapUpd s.ds key val })

/-- Embeds `set` (src/admin.go lines 118-137): this revision checks only
memcache and the datastore — it has NO process-local conflict check — and
puts `&e{Value: val}`. -/
def setA (mcFault dsFault : Bool) (s : St) (key val : String) :
    SetResult × St :=
  if mcFault || (s.memc (memcacheLookupKey key)).isSome then
    (.foundMemcache, s)
  else if dsFault then (.backend, s)
  else match s.ds key with
  | some _ => (.foundDatastore, s)
  | none => (.ok, { s with ds := mapUpd s.ds key val })

/-- What the delete branch of `updateHandler` reports to the HTTP caller. -/
inductive DelResult where
  | success
  | httpError
deriving DecidableEq

/-- Embeds the delete branch of `updateHandler` (src/admin.go lines
92-104).  `memcache.Delete` errors other than `ErrCacheMiss` (`mcFault`)
are surfaced as HTTP 500; a cache miss is tolerated and execution
continues.  `datastore.Delete` in the App Engine API succeeds (returns
nil) when the entity is absent, so only a backend failure (`dsFault`) can
make it return an error, which the handler surfaces as HTTP 500.  The
process-local map is never touched. -/
def deleteValue (mcFault dsFault : Bool) (s : St) (key : String) :
    DelResult × St :=
  if mcFault then (.httpError, s)
  else
    let s1 : St := { s with memc := mapDel s.memc key }
    if dsFault then (.httpError, s1)
    else (.success, { s1 with ds := mapDel s1.ds key })

/-- Modelled from the spec: the repository's `GetMulti` implementation is
not among the files under `src/` (only the README's usage example calls
`value.GetMulti`).  Following the specification's batched read path: one
multi-get against the distributed cache for all requested keys; the keys
it misses are looked up in the durable store with one multi-lookup; each
durable hit is backfilled into the distributed cache under
`MemcacheKeyPrefix + key`; the returned mapping has an entry for every
requested key, with keys unresolved at both tiers mapped to the empty
string, and the process-local tier is neither consulted nor populated.
`resolveOne` is the per-key resolution used by `getMulti`: the
distributed-cache result if present, else the durable-store value if
present, else the empty string. -/
def resolveOne (s : St) (k : String) : String :=
  match s.memc k with
  | some v => v
  | none =>
    match s.ds k with
    | some v => v
    | none => ""

/-- Modelled from the spec (continuation of `resolveOne`): the full
batched read path — the result mapping pairs every requested key with its
`resolveOne` resolution, and the durable hits among the distributed-cache
misses are backfilled into the distributed cache. -/
def getMulti (pfx : String) (s : St) (ks : List String) :
    List (String × String) × St :=
  let backfilled : List (String × String) := ks.filterMap fun k =>
    match s.memc k with
    | some _ => none
    | none => (s.ds k).map fun v => (memcacheStoreKey pfx k, v)
  (ks.map fun k => (k, resolveOne s k),
   { s with memc := fun x =>
       match backfilled.lookup x with
       | some v => some v
       | none => s.memc x })

/-- C10: a non-admin caller of `Set` (src/value.go lines 81-84) is rejected
with an error before any tier is consulted or modified: the result is the
admin-only error and the state is returned unchanged, whatever the fault
flags, state, key and value. -/
theorem set_nonadmin_rejected_atomically (mf df : Bool) (s : St)
    (key val : String) :
    SetV false mf df s key val = (.adminOnly, s) := rfl

/-- C1: write-once round trip fails on `Set` as written in src/value.go
lines 81-107.  Starting from the empty state, `Set("k1", "v1")` succeeds
and a second `Set("k1", "v2")` fails with the datastore already-exists
error, but `Get("k1")` then returns `"k1"` — the key — not `"v1"`: line
104 puts `e{Value: key}` instead of the value. -/
theorem set_get_roundtrip_stores_key :
    (SetV true false false st0 "k1" "v1").1 = .ok ∧
    (SetV true false false (SetV true false false st0 "k1" "v1").2
      "k1" "v2").1 = .foundDatastore ∧
    (Get "" false false false (SetV true false false st0 "k1" "v1").2
      "k1").1 = "k1" ∧
    "k1" ≠ "v1" := by
  refine ⟨rfl, rfl, rfl, by decide⟩

/-- C9: a key absent from all three tiers resolves to the empty string and
`Get` leaves the state exactly as it was — no tier is populated and no
error reaches the caller (the Go function's only return value is the
string). -/
theorem get_unset_key_silent (pfx : String) (s : St) (k : String)
    (hl : s.loc k = none) (hm : s.memc k = none) (hd : s.ds k = none) :
    Get pfx false false false s k = ("", s) := by
  simp [Get, memcacheLookupKey, hl, hm, hd]

/-- C9 witness: `Get` of `"k"` on the empty state returns `""` and the
empty state. -/
theorem get_unset_key_silent_witness :
    Get "" false false false st0 "k" = ("", st0) :=
  get_unset_key_silent "" st0 "k" rfl rfl rfl

/-- C2: read-through backfill.  If the key is absent from the local map
and from memcache but the datastore holds `(k, v)`, then `Get(k)` returns
`v`, afterwards the local map sends `k` to `v`, and memcache holds `v`
under its physical key `MemcacheKeyPrefix + k` (the distributed-cache
state is keyed by prefix + key). -/
theorem get_read_through_backfill (pfx : String) (s : St) (k v : String)
    (hl : s.loc k = none) (hm : s.memc k = none) (hd : s.ds k = some v) :
    (Get pfx false false false s k).1 = v ∧
    (Get pfx false false false s k).2.loc k = some v ∧
    (Get pfx false false false s k).2.memc (memcacheStoreKey pfx k)
      = some v := by
  simp [Get, memcacheLookupKey, hl, hm, hd, mapUpd]

/-- C2 witness: with the datastore holding `("k", "v")` and both caches
empty, `Get("k")` returns `"v"` and backfills both caches. -/
theorem get_read_through_backfill_witness :
    (Get "p" false false false ⟨fun _ => none, fun _ => none,
       fun x => if x = "k" then some "v" else none⟩ "k").1 = "v" ∧
    (Get "p" false false false ⟨fun _ => none, fun _ => none,
       fun x => if x = "k" then some "v" else none⟩ "k").2.loc "k"
      = some "v" ∧
    (Get "p" false false false ⟨fun _ => none, fun _ => none,
       fun x => if x = "k" then some "v" else none⟩ "k").2.memc
      (memcacheStoreKey "p" "k") = some "v" :=
  get_read_through_backfill "p" _ "k" "v" rfl rfl (by decide)

/-- State with `"k" → "v"` cached in memcache only. -/
def st4 : St :=
  ⟨fun _ => none, fun x => if x = "k" then some "v" else none,
   fun _ => none⟩

/-- C4 counterexample: with the local map empty and memcache holding
`"k" → "v"`, `Get("k")` returns `"v"` but does NOT populate the
process-local map — the memcache-hit branch of `Get` (src/value.go lines
49-53) returns immediately without writing to `local`, contrary to the
claim. -/
theorem get_memcache_hit_does_not_warm_local :
    (Get "" false false false st4 "k").1 = "v" ∧
    (Get "" false false false st4 "k").2.loc "k" = none := by decide

/-- C4 amended: when `Get(k)` misses the process-local map but hits
memcache with value `v`, it returns `v` and leaves the state completely
unchanged — in particular the process-local map is not populated; only a
datastore hit warms it. -/
theorem get_memcache_hit_returns_without_warming (pfx : String) (s : St)
    (k v : String) (hl : s.loc k = none) (hm : s.memc k = some v) :
    Get pfx false false false s k = (v, s) := by
  simp [Get, memcacheLookupKey, hl, hm]

/-- C4 amended witness: on `st4`, `Get("k")` returns `"v"` and the state
unchanged. -/
theorem get_memcache_hit_returns_without_warming_witness :
    Get "" false false false st4 "k" = ("v", st4) :=
  get_memcache_hit_returns_without_warming "" st4 "k" "v" rfl (by decide)

/-- State with `"k" → "v"` in the datastore only. -/
def st5 : St :=
  ⟨fun _ => none, fun _ => none,
   fun x => if x = "k" then some "v" else none⟩

/-- C5 counterexample: with `MemcacheKeyPrefix = "p"`, the backfill in
`Get` stores the resolved value under memcache key `"pk"` while every
memcache lookup (in `Get` and in the `Set` conflict check) uses the bare
key `"k"`; the two keys differ, so after the backfill the value is not
found under the lookup key. -/
theorem memcache_key_roundtrip_fails_with_prefix :
    (Get "p" false false false st5 "k").2.memc (memcacheStoreKey "p" "k")
      = some "v" ∧
    (Get "p" false false false st5 "k").2.memc (memcacheLookupKey "k")
      = none ∧
    memcacheStoreKey "p" "k" ≠ memcacheLookupKey "k" := by decide

/-- C5 amended: the memcache key under which `Get`'s backfill stores a
value coincides with the key under which `Get` and the `Set` conflict
check look it up exactly when the configured `MemcacheKeyPrefix` is the
empty string (its default); for any non-empty prefix the backfill stores
under `prefix + key` while lookups use the bare key. -/
theorem memcache_key_roundtrip_iff_empty_pfx (pfx key : String) :
    memcacheStoreKey pfx key = memcacheLookupKey key ↔ pfx = "" := by
  unfold memcacheStoreKey memcacheLookupKey
  constructor
  · intro h
    have hd := congrArg String.data h
    rw [String.data_append] at hd
    have hlen := congrArg List.length hd
    rw [List.length_append] at hlen
    have hz : pfx.data.length = 0 := by omega
    have hnil : pfx.data = [] := List.eq_nil_of_length_eq_zero hz
    apply String.ext
    simpa using hnil
  · intro h
    subst h
    simp

/-- State with `"k" → "v"` in the process-local map only. -/
def st3 : St :=
  ⟨fun x => if x = "k" then some "v" else none, fun _ => none,
   fun _ => none⟩

/-- C3 counterexample: the `set` revision in src/admin.go (lines 118-137)
has no process-local conflict check, so with `"k"` present only in the
process-local map, `set("k", "v2")` SUCCEEDS instead of failing with an
already-exists error. -/
theorem setA_succeeds_despite_local_presence :
    st3.loc "k" = some "v" ∧ (setA false false st3 "k" "v2").1 = .ok := by
  decide

/-- C3 amended: the `Set`/`set` revisions in src/value.go fail with an
already-exists error and leave the state unchanged whenever the key is
present in any tier — process-local map, memcache, or datastore; the
src/admin.go revision of `set` omits the process-local check, so for it
only presence in memcache or the datastore forces failure. -/
theorem set_fails_on_any_tier_presence (s : St) (key val : String)
    (h : (s.loc key).isSome ∨ (s.memc key).isSome ∨ (s.ds key).isSome) :
    (setV2 false false s key val).1 ≠ .ok ∧
    (setV2 false false s key val).2 = s ∧
    (SetV true false false s key val).1 ≠ .ok ∧
    (SetV true false false s key val).2 = s ∧
    (((s.memc key).isSome ∨ (s.ds key).isSome) →
      (setA false false s key val).1 ≠ .ok ∧
      (setA false false s key val).2 = s) := by
  cases hl : s.loc key with
  | some v =>
    refine ⟨?_, ?_, ?_, ?_, ?_⟩ <;>
      try simp [setV2, SetV, hl]
    intro hmd
    cases hmd with
    | inl hm =>
      obtain ⟨w, hw⟩ := Option.isSome_iff_exists.mp hm
      simp [setA, memcacheLookupKey, hw]
    | inr hdd =>
      obtain ⟨w, hw⟩ := Option.isSome_iff_exists.mp hdd
      cases hmc : s.memc key with
      | some u => simp [setA, memcacheLookupKey, hmc]
      | none => simp [setA, memcacheLookupKey, hmc, hw]
  | none =>
    cases h with
    | inl hll => rw [hl] at hll; exact absurd hll (by simp)
    | inr hmd =>
      cases hmd with
      | inl hm =>
        obtain ⟨w, hw⟩ := Option.isSome_iff_exists.mp hm
        refine ⟨?_, ?_, ?_, ?_, ?_⟩ <;>
          simp [setV2, SetV, setA, memcacheLookupKey, hl, hw]
      | inr hdd =>
        obtain ⟨w, hw⟩ := Option.isSome_iff_exists.mp hdd
        cases hmc : s.memc key with
        | some u =>
          refine ⟨?_, ?_, ?_, ?_, ?_⟩ <;>
            simp [setV2, SetV, setA, memcacheLookupKey, hl, hmc]
        | none =>
          refine ⟨?_, ?_, ?_, ?_, ?_⟩ <;>
            simp [setV2, SetV, setA, memcacheLookupKey, hl, hmc, hw]

/-- C3 amended witness: with `"k"` only in the process-local map, both
src/value.go revisions reject the write and leave the state unchanged. -/
theorem set_fails_on_any_tier_presence_witness :
    (setV2 false false st3 "k" "v2").1 ≠ .ok ∧
    (setV2 false false st3 "k" "v2").2 = st3 :=
  ⟨(set_fails_on_any_tier_presence st3 "k" "v2" (Or.inl (by decide))).1,
   (set_fails_on_any_tier_presence st3 "k" "v2" (Or.inl (by decide))).2.1⟩

/-- C7: delete error policy of `updateHandler`'s delete branch.  With the
key absent from memcache (so `memcache.Delete` reports a cache miss) and
absent from the datastore, the delete succeeds; a second delete of the
same (still absent) key succeeds as well, since an absent entity is never
an error for the datastore delete; a memcache backend failure other than
a miss is surfaced as an HTTP error no matter what the datastore does, and
a datastore backend failure is surfaced as an HTTP error. -/
theorem delete_error_policy (s : St) (k : String)
    (hm : s.memc k = none) (hd : s.ds k = none) :
    (deleteValue false false s k).1 = .success ∧
    (deleteValue false false (deleteValue false false s k).2 k).1
      = .success ∧
    (∀ b, (deleteValue true b s k).1 = .httpError) ∧
    (deleteValue false true s k).1 = .httpError :=
  ⟨rfl, rfl, fun _ => rfl, rfl⟩

/-- C7 witness: deleting the absent key `"k"` twice in a row from the
empty state succeeds both times. -/
theorem delete_error_policy_witness :
    (deleteValue false false st0 "k").1 = .success ∧
    (deleteValue false false (deleteValue false false st0 "k").2 "k").1
      = .success :=
  ⟨(delete_error_policy st0 "k" rfl rfl).1,
   (delete_error_policy st0 "k" rfl rfl).2.1⟩

/-- C8: the delete branch of `updateHandler` removes the key from memcache
and from the datastore but leaves the process-local map untouched, so a
`Get` of a locally cached key after the delete still returns the old
cached value. -/
theorem delete_leaves_local_cache_stale (pfx : String) (s : St)
    (k v : String) (h : s.loc k = some v) :
    (deleteValue false false s k).2.loc = s.loc ∧
    (deleteValue false false s k).2.memc k = none ∧
    (deleteValue false false s k).2.ds k = none ∧
    (Get pfx false false false (deleteValue false false s k).2 k).1 = v := by
  refine ⟨rfl, ?_, ?_, ?_⟩
  · simp [deleteValue, mapDel]
  · simp [deleteValue, mapDel]
  · simp [deleteValue, Get, h]

/-- C8 witness: with `"k" → "v"` cached locally, deleting `"k"` and then
reading it back still yields `"v"` in the same process. -/
theorem delete_leaves_local_cache_stale_witness :
    (Get "" false false false (deleteValue false false st3 "k").2 "k").1
      = "v" :=
  (delete_leaves_local_cache_stale "" st3 "k" "v" (by decide)).2.2.2

/-- C6: `GetMulti` completeness (against the spec-modelled batched read
path, see `getMulti`).  The returned mapping's key list is exactly the
requested key list, and a requested key unresolved at both the distributed
cache and the durable store appears in the mapping bound to the empty
string rather than being omitted. -/
theorem getMulti_completeness (pfx : String) (s : St) (ks : List String)
    (k : String) (hk : k ∈ ks) (hm : s.memc k = none) (hd : s.ds k = none) :
    ((getMulti pfx s ks).1.map Prod.fst = ks) ∧
    ((k, "") ∈ (getMulti pfx s ks).1) := by
  constructor
  · simp only [getMulti, List.map_map]
    have hcomp : (Prod.fst ∘ fun x => (x, resolveOne s x))
        = fun x : String => x := funext fun _ => rfl
    rw [hcomp]
    exact List.map_id ks
  · simp only [getMulti]
    refine List.mem_map.mpr ⟨k, hk, ?_⟩
    simp [resolveOne, hm, hd]

/-- C6 witness: requesting `["a", "b"]` against the empty state yields a
mapping whose keys are exactly `["a", "b"]`, with the unresolved key `"a"`
bound to `""`. -/
theorem getMulti_completeness_witness :
    ((getMulti "" st0 ["a", "b"]).1.map Prod.fst = ["a", "b"]) ∧
    (("a", "") ∈ (getMulti "" st0 ["a", "b"]).1) :=
  getMulti_completeness "" st0 ["a", "b"] "a" (by decide) rfl rfl
